import Mathlib

/-!
Verification of the hybrid query-resolution core of the `langchain_neo4j`
repository, as a shallow embedding in Lean 4.

The central function is `QAService.query` (src/src/services/qa_service.py,
lines 300-383).  Its effectful collaborators — the lazily built
`GraphCypherQAChain`, the vector store, and the language model — are external
services; in the embedding every call to one of them is an oracle field of the
`Oracles` structure, each returning `Except` to reflect that the Python call
may raise.  The control flow of `query` itself (the try/except structure, the
fallback values, the response dictionary) is translated statement by
statement.

A second view, `qaQueryGraph`, threads an explicit graph-store state through
the one operation that can touch it (the chain invocation, which executes the
LLM-generated Cypher), to settle the frame-effect claim.

Separate small models cover the resolver-cache lifecycle
(`CacheState`/`stepAct` for `refresh_schema` and `_get_chain`,
`processQueryRequestBuilds` for the per-request construction in
src/src/api/routes/query.py), the row-cap handling of
`AsyncNeo4jService.execute_query`, and the ingestion path
(`processContract`, `classifyDocument` from
src/src/services/ingestion_service.py).
-/

set_option autoImplicit false

namespace LangchainNeo4j

/-! ## Data model of the query path (src/src/services/qa_service.py) -/

/-- One entry of `graph_result["intermediate_steps"]`.  The source comment at
lines 344-346 notes the entries are dicts (with keys like `query`) or other
shapes depending on the library version; `query` only reads
`steps[0].get("query", "")` when `steps[0]` is a dict, so a step is either a
dict with an optional `query` value or some non-dict value. -/
inductive Step where
  | dict (query? : Option String)
  | nondict
deriving DecidableEq, Repr

/-- Result dictionary returned by `chain.invoke` at line 337: an optional
`result` entry (read with default `"No data found in graph."` at line 339)
and the `intermediate_steps` list (present because the chain is built with
`return_intermediate_steps=True`, line 270). -/
structure GraphResult where
  result? : Option String
  intermediateSteps : List Step
deriving DecidableEq, Repr

/-- QueryExecutionError as raised at line 383:
`QueryExecutionError(f"Failed to execute query: {e}", details={"question": question})`.
The `question` field is the single entry of the `details` dictionary. -/
structure QueryError where
  message : String
  question : String
deriving DecidableEq, Repr

/-- Metadata bag of the response dictionary built at lines 361-371. -/
structure Metadata where
  provider : String
  model : String
  contextUsed : List String
  executionTimeMs : Nat
  structuredSource : String
deriving DecidableEq, Repr

/-- Response dictionary built at lines 358-375: keys `question`, `answer`,
`metadata`, and (conditionally, line 374-375) `cypher_query`.  A retrieved
document is represented by its `page_content` string. -/
structure Response where
  question : String
  answer : String
  metadata : Metadata
  cypherQuery? : Option String
deriving DecidableEq, Repr

/-- Outcomes of the external calls made during one `QAService.query` run, plus
the configuration values read from `settings`.  Each `Except`-valued field
models a Python call that may raise:
* `getChain` — `self._get_chain()` (line 313), including `_get_llm` and
  `GraphCypherQAChain.from_llm`;
* `vecSearch` — `vector_service.similarity_search(question, k)` (line 322),
  returning the `page_content` of each document;
* `chainInvoke` — `chain.invoke({"query": question, "context": ...})`
  (line 337);
* `synthLLM` — the `_get_llm()` + `llm.invoke(prompt)` pair inside
  `_synthesize_answer` (lines 280-293);
* `provider`/`model` — `settings.llm_provider` and the provider-matched model
  name (lines 362-367);
* `elapsedMs` — the measured wall-clock difference of lines 312/355-356. -/
structure Oracles where
  getChain : Except String Unit
  vecSearch : String → Nat → Except String (List String)
  chainInvoke : String → String → Except String GraphResult
  synthLLM : String → Except String String
  provider : String
  model : String
  elapsedMs : Nat

/-! ## The synthesis step (`QAService._synthesize_answer`, lines 277-298) -/

/-- Formatting of the context documents: `"\n".join([f"- {d.page_content}" for d in context_docs])` (line 283). -/
def formatDocs (docs : List String) : String :=
  String.intercalate "\n" (docs.map (fun d => "- " ++ d))

/-- Line 284-285: an empty formatted block is replaced by the fixed sentence. -/
def formatDocsOrDefault (docs : List String) : String :=
  let formatted := formatDocs docs
  if formatted = "" then "No relevant document context found." else formatted

/-- HYBRID_SYNTHESIS_PROMPT.format(...) (lines 208-229 and 287-291): the
template with the three placeholders substituted. -/
def synthPrompt (question structuredData contextDocs : String) : String :=
  "Task: Answer the user's question by combining information from the Database (Structured Data) and the Document Store (Unstructured Context).\n\n=== QUESTION ===\n"
    ++ question
    ++ "\n\n=== STRUCTURED FACTS (From Graph Database) ===\n"
    ++ structuredData
    ++ "\n\n=== UNSTRUCTURED CONTEXT (From Documents) ===\n"
    ++ contextDocs
    ++ "\n\n=== INSTRUCTIONS ===\n1. Synthesize the answer using BOTH sources.\n2. If the Structured Facts provide specific data (lists, counts, names), include them.\n3. If the Unstructured Context provides policies, definitions, or descriptive details, explain them.\n4. If there is a conflict, note it, but prefer the official policy (Unstructured) for rules and Database (Structured) for current stats.\n5. Provide a cohesive, professional response.\n"

/-- `_synthesize_answer` (lines 277-298): the whole body is a try/except, so
the function never raises; on any failure it returns
`f"Error synthesizing answer: {e}. Structured Data: {structured_data}"`
(line 298). `synthLLM` is the oracle for `_get_llm()` + `llm.invoke(prompt)`. -/
def synthesizeAnswer (synthLLM : String → Except String String)
    (question structuredData : String) (docs : List String) : String :=
  match synthLLM (synthPrompt question structuredData (formatDocsOrDefault docs)) with
  | .ok answer => answer
  | .error e => "Error synthesizing answer: " ++ e ++ ". Structured Data: " ++ structuredData

/-! ## The query operation (`QAService.query`, lines 300-383) -/

/-- Lines 320-326: the inner try/except around the vector search; any failure
is logged and replaced by an empty document list. -/
def qaDocs (o : Oracles) (question : String) : List String :=
  match o.vecSearch question 3 with
  | .ok docs => docs
  | .error _ => []

/-- Lines 333-335: the context block injected into the chain; empty docs give
the fixed fallback sentence. -/
def chainContext (docs : List String) : String :=
  let c := String.intercalate "\n" (docs.map (fun d => "- " ++ d))
  if c = "" then "No additional context available." else c

/-- Cypher extraction at lines 340-347: take `steps[0].get("query", "")` when
the steps list is non-empty and its head is a dict, else keep the initial
empty string. -/
def extractCypher : List Step → String
  | [] => ""
  | .dict query? :: _ => query?.getD ""
  | .nondict :: _ => ""

/-- `QAService.query` (lines 300-383).  The whole body is one try/except
whose handler re-raises every exception as
`QueryExecutionError(f"Failed to execute query: {e}", details={"question": question})`;
the only exceptions that can reach it come from `_get_chain` (line 313) and
`chain.invoke` (line 337), since the vector search has its own handler
(lines 320-326) and `_synthesize_answer` is total.  The success value is the
response dictionary of lines 358-375: the `cypher_query` key is added only
when `include_cypher` holds and a non-empty query text was extracted. -/
def qaQuery (o : Oracles) (question : String) (includeCypher : Bool) :
    Except QueryError Response :=
  match o.getChain with
  | .error e => .error ⟨"Failed to execute query: " ++ e, question⟩
  | .ok _ =>
    let docs := qaDocs o question
    match o.chainInvoke question (chainContext docs) with
    | .error e => .error ⟨"Failed to execute query: " ++ e, question⟩
    | .ok graphResult =>
      let structuredData := graphResult.result?.getD "No data found in graph."
      let cypherQuery := extractCypher graphResult.intermediateSteps
      let finalAnswer := synthesizeAnswer o.synthLLM question structuredData docs
      .ok
        { question := question
          answer := finalAnswer
          metadata :=
            { provider := o.provider
              model := o.model
              contextUsed := docs
              executionTimeMs := o.elapsedMs
              structuredSource := structuredData }
          cypherQuery? :=
            if includeCypher && !(cypherQuery == "") then some cypherQuery else none }

/-! ## The query operation with an explicit graph-store state

`qaQueryGraph` is the same function as `qaQuery` with the state of the graph
store made explicit.  The only step of `QAService.query` that can change the
store is the chain invocation at line 337: `GraphCypherQAChain` generates a
Cypher statement with the language model and executes it against the graph
(`allow_dangerous_requests=True` at line 269 opts into executing whatever was
generated; `validate_cypher=True` at line 272 only validates relationship
directions, not read-onlyness).  The vector search reads the store, and the
two synthesis/LLM calls do not touch it.  `GraphState` is the abstract
content of the store (its nodes, relationships and properties). -/

/-- Abstract content of the graph store: an opaque list of facts (nodes,
relationships, property values).  Only equality of whole states matters. -/
abbrev GraphState := List String

/-- Oracles of `qaQueryGraph`: identical to `Oracles` except that the chain
invocation consumes and returns the graph-store state, reflecting that it
executes the generated Cypher against the store (and returns whatever state
that execution left even when it raises). -/
structure GraphOracles where
  getChain : Except String Unit
  vecSearch : String → Nat → Except String (List String)
  chainInvoke : String → String → GraphState → Except String GraphResult × GraphState
  synthLLM : String → Except String String
  provider : String
  model : String
  elapsedMs : Nat

/-- Vector-search fallback of lines 320-326, for the state-threading view. -/
def qaDocsG (o : GraphOracles) (question : String) : List String :=
  match o.vecSearch question 3 with
  | .ok docs => docs
  | .error _ => []

/-- `QAService.query` with the graph-store state threaded through the chain
invocation; every other step is as in `qaQuery`. -/
def qaQueryGraph (o : GraphOracles) (question : String) (includeCypher : Bool)
    (g : GraphState) : Except QueryError Response × GraphState :=
  match o.getChain with
  | .error e => (.error ⟨"Failed to execute query: " ++ e, question⟩, g)
  | .ok _ =>
    let docs := qaDocsG o question
    match o.chainInvoke question (chainContext docs) g with
    | (.error e, g2) => (.error ⟨"Failed to execute query: " ++ e, question⟩, g2)
    | (.ok graphResult, g2) =>
      let structuredData := graphResult.result?.getD "No data found in graph."
      let cypherQuery := extractCypher graphResult.intermediateSteps
      let finalAnswer := synthesizeAnswer o.synthLLM question structuredData docs
      (.ok
        { question := question
          answer := finalAnswer
          metadata :=
            { provider := o.provider
              model := o.model
              contextUsed := docs
              executionTimeMs := o.elapsedMs
              structuredSource := structuredData }
          cypherQuery? :=
            if includeCypher && !(cypherQuery == "") then some cypherQuery else none },
        g2)

/-! ## Resolver-cache lifecycle (`refresh_schema` / `_get_chain`)

`QAService.refresh_schema` (lines 385-393) is two separate statements with no
lock: `self.graph.refresh_schema()` and then `self._chain = None`.
`_get_chain` (lines 257-275) returns the cached chain when one exists,
otherwise builds one against the schema the graph currently holds and caches
it.  `CacheState` carries the version of the graph schema snapshot and the
schema version the cached chain was built from; each atomic action of the two
methods is one `Action`, and a trace is any interleaving of the actions of
the operations involved.  A query step reports the pair
(version the chain it used was built from, schema version current at use). -/

structure CacheState where
  schemaVer : Nat
  chain : Option Nat
deriving DecidableEq, Repr

inductive Action where
  /-- `self.graph.refresh_schema()` (line 391): the graph re-reads its schema,
  yielding the next snapshot version. -/
  | refreshGraphSchema
  /-- `self._chain = None` (line 392). -/
  | dropChain
  /-- A query call on the same service: `_get_chain` (return the cached chain
  or build one against the current snapshot and cache it) followed by the use
  of that chain. -/
  | queryGetChain
deriving DecidableEq, Repr

/-- Effect of one atomic action; a query action additionally reports the
observation (chain build version, current schema version). -/
def stepAct (s : CacheState) : Action → CacheState × Option (Nat × Nat)
  | .refreshGraphSchema => ({ s with schemaVer := s.schemaVer + 1 }, none)
  | .dropChain => ({ s with chain := none }, none)
  | .queryGetChain =>
    match s.chain with
    | some v => (s, some (v, s.schemaVer))
    | none => ({ s with chain := some s.schemaVer }, some (s.schemaVer, s.schemaVer))

/-- Run a sequence of atomic actions, collecting the query observations. -/
def runTrace (s : CacheState) : List Action → CacheState × List (Nat × Nat)
  | [] => (s, [])
  | a :: rest =>
    let (s2, obs) := stepAct s a
    let (s3, obsRest) := runTrace s2 rest
    (s3, obs.toList ++ obsRest)

/-- The two atomic actions of `QAService.refresh_schema` (lines 390-393), in
source order and with nothing forcing them to run back to back. -/
def refreshSchemaActions : List Action := [.refreshGraphSchema, .dropChain]

/-- Interleaving of two action sequences: the merge keeps the relative order
of each operand. -/
inductive Interleave : List Action → List Action → List Action → Prop where
  | nil : Interleave [] [] []
  | left {a l1 l2 l} : Interleave l1 l2 l → Interleave (a :: l1) l2 (a :: l)
  | right {a l1 l2 l} : Interleave l1 l2 l → Interleave l1 (a :: l2) (a :: l)

/-! ## Chain construction per request (src/src/api/routes/query.py)

`process_query` (lines 57-67 of query.py) obtains the shared graph and then
constructs a **fresh** `QAService(graph)` for every request, so the request's
`_get_chain` always finds `self._chain is None` and builds a new chain.  The
module-level `get_qa_service` (qa_service.py lines 396-414) exists to share
"the same graph connection and chain cache across requests" but is only
called by the admin refresh route. -/

/-- Chain cache of one `QAService` instance (field `_chain`, line 236). -/
structure QAServiceState where
  chain : Option Unit
deriving DecidableEq, Repr

/-- `QAService.__init__` (lines 234-236): the cache starts empty. -/
def QAServiceState.new : QAServiceState := ⟨none⟩

/-- `_get_chain` at the cache level (lines 257-275): reuse the cached chain,
or build one and cache it; the Bool reports whether a build happened. -/
def getChainBuild (s : QAServiceState) : QAServiceState × Bool :=
  match s.chain with
  | some _ => (s, false)
  | none => (⟨some ()⟩, true)

/-- Number of chain constructions caused by one request through
`process_query` (query.py lines 57-67): the route builds a fresh
`QAService(graph)`, whose `_get_chain` therefore always constructs a chain. -/
def processQueryRequestBuilds : Nat :=
  (getChainBuild QAServiceState.new).2.toNat

/-- Total chain constructions over `n` consecutive requests through the
route, with no schema invalidation in between. -/
def routeChainBuilds : Nat → Nat
  | 0 => 0
  | n + 1 => routeChainBuilds n + processQueryRequestBuilds

/-! ## Row-cap handling (`AsyncNeo4jService.execute_query`)

Lines 97-107 of src/src/services/async_neo4j_service.py: after collecting
`records`, any records beyond `settings.query_max_results` are dropped with a
warning log; no exception is raised.  The Bool of the result records whether
the warning path was taken. -/

def executeQueryLimit {α : Type} (queryMaxResults : Nat) (records : List α) :
    List α × Bool :=
  if records.length > queryMaxResults then (records.take queryMaxResults, true)
  else (records, false)

/-! ## Ingestion path (src/src/services/ingestion_service.py)

`_process_contract` (lines 108-189): parse the LLM extraction as JSON
(falling back to metadata-built defaults on a parse failure, lines 119-129),
unconditionally `CREATE` a `Contract` node (lines 135-161), then — only when
a client name is truthy — `MATCH` every `Client` whose lowercased name
contains the lowercased client name and `MERGE` a `FOR_CLIENT` link to each
(lines 164-181).  An empty match only logs a warning; the returned dictionary
(lines 183-189) always reports `linked_client` as the client name that was
attempted (possibly `None` when none was supplied). -/

/-- List containment at the front: `chStarts needle hay` holds when `needle`
is an initial segment of `hay`. -/
def chStarts : List Nat → List Nat → Bool
  | [], _ => true
  | _ :: _, [] => false
  | a :: as, b :: bs => a == b && chStarts as bs

/-- True when `needle` occurs contiguously inside `hay`. -/
def chHasSub (needle : List Nat) : List Nat → Bool
  | [] => chStarts needle []
  | c :: rest => chStarts needle (c :: rest) || chHasSub needle rest

/-- ASCII lowercasing of one character code (A-Z map to a-z). -/
def lowCode (n : Nat) : Nat := if 65 ≤ n ∧ n ≤ 90 then n + 32 else n

/-- Character codes of a string, lowercased. -/
def strLowerCodes (s : String) : List Nat :=
  s.toList.map (fun c => lowCode c.toNat)

/-- Model of `toLower(name) CONTAINS toLower(sub)` in the link queries
(ingestion_service.py line 169 and line 245), with lowercasing modelled on
the ASCII range. -/
def lowerContains (name sub : String) : Bool :=
  chHasSub (strLowerCodes sub) (strLowerCodes name)

/-- Fields of the JSON object requested by CONTRACT_EXTRACTION_PROMPT
(lines 36-52); every field may be null/absent. -/
structure ContractData where
  title? : Option String
  clientName? : Option String
  contractType? : Option String
  startDate? : Option String
  endDate? : Option String
  value? : Option Int
  keyTerms? : Option String
deriving DecidableEq, Repr

/-- Metadata dictionary handed to the ingestion service by the admin routes
(src/src/api/routes/admin.py lines 44-47, 95-101, 150-155). -/
structure IngestMetadata where
  filename? : Option String
  docType? : Option String
  clientName? : Option String
  contractType? : Option String
  departments : List String
deriving DecidableEq, Repr

/-- Python `a or b` on optional strings: `None` and the empty string are
falsy, so they fall through to `b` (used at ingestion_service.py line 164 and
process_pdf line 321). -/
def pyOr (a b : Option String) : Option String :=
  match a with
  | some s => if s = "" then b else some s
  | none => b

/-- Python truthiness of an optional string (`if client_name:` at line 165). -/
def pyTruthy : Option String → Bool
  | some s => !(s == "")
  | none => false

/-- Portion of the graph store touched by `_process_contract`: existing
`Client` node names, `Contract` nodes as (id, title) pairs, and `FOR_CLIENT`
relationships as (contract id, client name) pairs. -/
structure ContractGraph where
  clients : List String
  contracts : List (String × String)
  links : List (String × String)
deriving DecidableEq, Repr

/-- Result dictionary of `_process_contract` (lines 183-189). -/
structure ContractResult where
  status : String
  documentType : String
  contractId : String
  title? : Option String
  linkedClient? : Option String
deriving DecidableEq, Repr

/-- Defaults used when `json.loads` on the extraction response fails
(lines 123-129). -/
def contractDefaults (metadata : IngestMetadata) : ContractData :=
  { title? := some (metadata.filename?.getD "Untitled Contract")
    clientName? := metadata.clientName?
    contractType? := some (metadata.contractType?.getD "General")
    startDate? := none
    endDate? := none
    value? := none
    keyTerms? := some "Failed to extract terms" }

/-- `_process_contract` (lines 108-189).  `parse?` is the outcome of
`json.loads(response.content)` on the LLM extraction (`none` models the
except branch), `contractId` models `str(uuid.uuid4())`.  Returns the updated
graph portion and the result dictionary. -/
def processContract (g : ContractGraph) (parse? : Option ContractData)
    (metadata : IngestMetadata) (contractId : String) :
    ContractGraph × ContractResult :=
  let contractData := parse?.getD (contractDefaults metadata)
  let g2 := { g with
    contracts := g.contracts ++ [(contractId, contractData.title?.getD "Untitled")] }
  let clientName? := pyOr contractData.clientName? metadata.clientName?
  let g3 :=
    if pyTruthy clientName? then
      let matched := g2.clients.filter (fun c => lowerContains c (clientName?.getD ""))
      { g2 with links := g2.links ++ matched.map (fun c => (contractId, c)) }
    else g2
  (g3,
    { status := "success"
      documentType := "contract"
      contractId := contractId
      title? := contractData.title?
      linkedClient? := clientName? })

/-! ## Classification and routing (`_classify_document` / `process_pdf`)

`_classify_document` (lines 96-106) invokes the language model on the
classification prompt and lowercases/strips the response; there is no
try/except, so a failing LLM call propagates, and `process_pdf`
(lines 334-336) re-raises it.  `process_pdf` (lines 321-329) routes the
resulting string: `"contract"` and `"policy"` select their processors,
anything else falls to the general processor. -/

/-- `_classify_document` given the outcome of `self.llm.invoke(prompt)`
(line 102): on success, `response.content.strip().lower()`; a raising LLM
call propagates unchanged. -/
def classifyDocument (llmResp : Except String String) : Except String String :=
  llmResp.map (fun content => content.trim.toLower)

/-- Closed set of processing routes of `process_pdf` lines 324-329. -/
inductive DocCategory where
  | contract
  | policy
  | general
deriving DecidableEq, Repr

/-- Routing of the classified type string (lines 324-329): anything other
than exactly "contract" or "policy" takes the general branch. -/
def routeDocType (docType : String) : DocCategory :=
  if docType = "contract" then .contract
  else if docType = "policy" then .policy
  else .general

/-- Classification followed by routing, as performed by `process_pdf` when no
`doc_type` hint is supplied (line 321): an LLM failure aborts ingestion, a
successful response always routes to exactly one category. -/
def classifyAndRoute (llmResp : Except String String) : Except String DocCategory :=
  (classifyDocument llmResp).map routeDocType

/-! ## Theorems about the query path -/

/-- C1: for every question, a failure of the semantic retriever or an empty
passage list does not abort `QAService.query`: the run is indistinguishable
from one whose retriever returned zero passages, and (when the structured
path succeeds) it returns a composite answer synthesized from the structured
result alone, with the passage context empty. -/
theorem qa_query_semantic_failure_degrades (o : Oracles) (question : String)
    (includeCypher : Bool) (msg : String) (gr : GraphResult)
    (hvec : o.vecSearch question 3 = .error msg)
    (hchain : o.getChain = .ok ())
    (hinvoke : o.chainInvoke question "No additional context available." = .ok gr) :
    qaQuery o question includeCypher
        = qaQuery { o with vecSearch := fun _ _ => .ok [] } question includeCypher
    ∧ qaQuery o question includeCypher = .ok
        { question := question
          answer := synthesizeAnswer o.synthLLM question
            (gr.result?.getD "No data found in graph.") []
          metadata :=
            { provider := o.provider
              model := o.model
              contextUsed := []
              executionTimeMs := o.elapsedMs
              structuredSource := gr.result?.getD "No data found in graph." }
          cypherQuery? :=
            if includeCypher && !(extractCypher gr.intermediateSteps == "") then
              some (extractCypher gr.intermediateSteps)
            else none } := by
  have hempty : String.intercalate "\n" ([] : List String) = "" := rfl
  constructor <;>
    simp [qaQuery, qaDocs, hvec, hchain, chainContext, hempty, hinvoke]

def c1Oracle : Oracles :=
  { getChain := .ok ()
    vecSearch := fun _ _ => .error "vector index unavailable"
    chainInvoke := fun _ _ => .ok
      { result? := some "3 employees"
        intermediateSteps := [.dict (some "MATCH (e:Employee) RETURN count(e)")] }
    synthLLM := fun _ => .ok "There are 3 employees."
    provider := "openai"
    model := "gpt-3.5-turbo"
    elapsedMs := 42 }

/-- Witness for C1 at a concrete failing retriever. -/
theorem qa_query_semantic_failure_degrades_witness :
    qaQuery c1Oracle "How many employees?" true
        = qaQuery { c1Oracle with vecSearch := fun _ _ => .ok [] }
            "How many employees?" true
    ∧ qaQuery c1Oracle "How many employees?" true = .ok
        { question := "How many employees?"
          answer := synthesizeAnswer c1Oracle.synthLLM "How many employees?"
            "3 employees" []
          metadata :=
            { provider := "openai"
              model := "gpt-3.5-turbo"
              contextUsed := []
              executionTimeMs := 42
              structuredSource := "3 employees" }
          cypherQuery? := some "MATCH (e:Employee) RETURN count(e)" } :=
  qa_query_semantic_failure_degrades c1Oracle "How many employees?" true
    "vector index unavailable"
    { result? := some "3 employees"
      intermediateSteps := [.dict (some "MATCH (e:Employee) RETURN count(e)")] }
    rfl rfl rfl

/-- C2: every failure of the structured path — the chain build
(`_get_chain`, covering query generation setup) or the chain invocation
(generation, validation, execution, timeout) — aborts `QAService.query` with
a QueryExecutionError whose details carry the original question. -/
theorem qa_query_structured_failure_fatal (o : Oracles) (question : String)
    (includeCypher : Bool) (e : String)
    (h : o.getChain = .ok ()
          ∧ o.chainInvoke question (chainContext (qaDocs o question)) = .error e
        ∨ o.getChain = .error e) :
    qaQuery o question includeCypher
      = .error { message := "Failed to execute query: " ++ e, question := question } := by
  rcases h with ⟨hchain, hinvoke⟩ | hchain <;> simp [qaQuery, hchain]
  simp [hinvoke]

def c2Oracle : Oracles :=
  { getChain := .ok ()
    vecSearch := fun _ _ => .ok ["Acme is our biggest client"]
    chainInvoke := fun _ _ => .error "Neo4j transaction timed out"
    synthLLM := fun _ => .ok "unused"
    provider := "openai"
    model := "gpt-3.5-turbo"
    elapsedMs := 30000 }

/-- Witness for C2 at a concrete timeout-style execution failure. -/
theorem qa_query_structured_failure_fatal_witness :
    qaQuery c2Oracle "Show all active contracts" false
      = .error
          { message := "Failed to execute query: Neo4j transaction timed out"
            question := "Show all active contracts" } :=
  qa_query_structured_failure_fatal c2Oracle "Show all active contracts" false
    "Neo4j transaction timed out" (Or.inl ⟨rfl, rfl⟩)

/-- C5: a synthesis failure never propagates out of `QAService.query`; the
call still succeeds and the answer is the raw structured result annotated
with the synthesis error. -/
theorem qa_query_synthesis_failure_degrades (o : Oracles) (question : String)
    (includeCypher : Bool) (gr : GraphResult) (err : String)
    (hchain : o.getChain = .ok ())
    (hinvoke : o.chainInvoke question (chainContext (qaDocs o question)) = .ok gr)
    (hsynth : o.synthLLM (synthPrompt question (gr.result?.getD "No data found in graph.")
        (formatDocsOrDefault (qaDocs o question))) = .error err) :
    ∃ r, qaQuery o question includeCypher = .ok r
      ∧ r.answer = "Error synthesizing answer: " ++ err ++ ". Structured Data: "
          ++ gr.result?.getD "No data found in graph." := by
  refine ⟨{ question := question
            answer := synthesizeAnswer o.synthLLM question
              (gr.result?.getD "No data found in graph.") (qaDocs o question)
            metadata :=
              { provider := o.provider
                model := o.model
                contextUsed := qaDocs o question
                executionTimeMs := o.elapsedMs
                structuredSource := gr.result?.getD "No data found in graph." }
            cypherQuery? :=
              if includeCypher && !(extractCypher gr.intermediateSteps == "") then
                some (extractCypher gr.intermediateSteps)
              else none }, ?_, ?_⟩
  · simp [qaQuery, hchain, hinvoke]
  · simp [synthesizeAnswer, hsynth]

def c5Oracle : Oracles :=
  { getChain := .ok ()
    vecSearch := fun _ _ => .ok []
    chainInvoke := fun _ _ => .ok
      { result? := some "12 active projects", intermediateSteps := [] }
    synthLLM := fun _ => .error "rate limit exceeded"
    provider := "groq"
    model := "mixtral-8x7b-32768"
    elapsedMs := 900 }

/-- Witness for C5 at a concrete failing synthesis model. -/
theorem qa_query_synthesis_failure_degrades_witness :
    ∃ r, qaQuery c5Oracle "How many active projects?" false = .ok r
      ∧ r.answer = "Error synthesizing answer: " ++ "rate limit exceeded"
          ++ ". Structured Data: " ++ "12 active projects" :=
  qa_query_synthesis_failure_degrades c5Oracle "How many active projects?" false
    { result? := some "12 active projects", intermediateSteps := [] }
    "rate limit exceeded" rfl rfl rfl

/-- C10: the response of a successful `QAService.query` call carries the
`cypher_query` key exactly when the caller passed `include_cypher = true` and
a non-empty query text was extracted from the first intermediate step. -/
theorem qa_query_cypher_key_iff (o : Oracles) (question : String)
    (includeCypher : Bool) (gr : GraphResult)
    (hchain : o.getChain = .ok ())
    (hinvoke : o.chainInvoke question (chainContext (qaDocs o question)) = .ok gr) :
    ∃ r, qaQuery o question includeCypher = .ok r
      ∧ (r.cypherQuery?.isSome
          ↔ includeCypher = true ∧ extractCypher gr.intermediateSteps ≠ "") := by
  refine ⟨{ question := question
            answer := synthesizeAnswer o.synthLLM question
              (gr.result?.getD "No data found in graph.") (qaDocs o question)
            metadata :=
              { provider := o.provider
                model := o.model
                contextUsed := qaDocs o question
                executionTimeMs := o.elapsedMs
                structuredSource := gr.result?.getD "No data found in graph." }
            cypherQuery? :=
              if includeCypher && !(extractCypher gr.intermediateSteps == "") then
                some (extractCypher gr.intermediateSteps)
              else none }, ?_, ?_⟩
  · simp [qaQuery, hchain, hinvoke]
  · cases includeCypher <;>
      by_cases hq : extractCypher gr.intermediateSteps = "" <;>
        simp [hq]

def c10Oracle : Oracles :=
  { getChain := .ok ()
    vecSearch := fun _ _ => .ok []
    chainInvoke := fun _ _ => .ok
      { result? := some "Alice, Bob", intermediateSteps := [.dict none] }
    synthLLM := fun _ => .ok "Alice and Bob work here."
    provider := "openai"
    model := "gpt-3.5-turbo"
    elapsedMs := 7 }

/-- Witness for C10: even with `include_cypher = true`, a first intermediate
step carrying no query text leaves the key absent. -/
theorem qa_query_cypher_key_iff_witness :
    ∃ r, qaQuery c10Oracle "List employees" true = .ok r
      ∧ (r.cypherQuery?.isSome
          ↔ true = true ∧ extractCypher [Step.dict none] ≠ "") :=
  qa_query_cypher_key_iff c10Oracle "List employees" true
    { result? := some "Alice, Bob", intermediateSteps := [.dict none] } rfl rfl

/-! ## Theorems about the resolver-cache lifecycle (C3) -/

/-- Interleaving of one `refresh_schema` call with two query calls in which a
query runs between the two statements of `refresh_schema`. -/
def c3Trace : List Action :=
  [.queryGetChain, .refreshGraphSchema, .queryGetChain, .dropChain]

/-- C3 counterexample: `refresh_schema` is two separate statements with no
lock, so in the interleaving `c3Trace` (a legal merge of one refresh and two
queries, starting from a fresh service at schema version 0) the second query
observes the cached chain built from snapshot 0 while the current schema
snapshot is already version 1 — the replacement is not atomic with respect to
concurrent query calls. -/
theorem refresh_schema_not_atomic_counterexample :
    Interleave refreshSchemaActions [Action.queryGetChain, Action.queryGetChain] c3Trace
    ∧ (runTrace ⟨0, none⟩ c3Trace).2 = [(0, 0), (0, 1)]
    ∧ ((0 : Nat), (1 : Nat)) ∈ (runTrace ⟨0, none⟩ c3Trace).2
    ∧ (0 : Nat) ≠ 1 := by
  refine ⟨?_, by decide, by decide, by decide⟩
  exact .right (.left (.right (.left .nil)))

/-- C3 amended: sequentially, a completed `refresh_schema` replaces the
snapshot and drops the cached chain together — afterwards the cache is empty
at the bumped schema version — and the next query call rebuilds the chain
against the fresh snapshot and uses exactly that snapshot. -/
theorem refresh_schema_sequential (s : CacheState) :
    (runTrace s refreshSchemaActions).1 = ⟨s.schemaVer + 1, none⟩
    ∧ (runTrace s (refreshSchemaActions ++ [Action.queryGetChain])).1
        = ⟨s.schemaVer + 1, some (s.schemaVer + 1)⟩
    ∧ (runTrace s (refreshSchemaActions ++ [Action.queryGetChain])).2
        = [(s.schemaVer + 1, s.schemaVer + 1)] := by
  refine ⟨?_, ?_, ?_⟩ <;> simp [runTrace, refreshSchemaActions, stepAct]

/-- Witness for the amended C3 statement at a concrete cache state. -/
theorem refresh_schema_sequential_witness :
    (runTrace ⟨4, some 4⟩ refreshSchemaActions).1 = ⟨5, none⟩
    ∧ (runTrace ⟨4, some 4⟩ (refreshSchemaActions ++ [Action.queryGetChain])).1
        = ⟨5, some 5⟩
    ∧ (runTrace ⟨4, some 4⟩ (refreshSchemaActions ++ [Action.queryGetChain])).2
        = [(5, 5)] :=
  refresh_schema_sequential ⟨4, some 4⟩

/-! ## Theorems about the frame effect of `query` (C4) -/

/-- Chain oracle that answers successfully but appends a node while executing
its generated Cypher — nothing in `QAService.query` prevents this, since the
chain runs whatever statement the language model generated
(`allow_dangerous_requests=True`). -/
def c4Oracle : GraphOracles :=
  { getChain := .ok ()
    vecSearch := fun _ _ => .ok []
    chainInvoke := fun _ _ g =>
      (.ok { result? := some "created", intermediateSteps := [] },
       g ++ ["Employee:Mallory"])
    synthLLM := fun _ => .ok "Done."
    provider := "openai"
    model := "gpt-3.5-turbo"
    elapsedMs := 3 }

/-- C4 counterexample: a query call that completes successfully while the
graph store after the call differs from the graph store before it, because
the generated Cypher executed by the chain performed a write. -/
theorem qa_query_can_mutate_graph_counterexample :
    qaQueryGraph c4Oracle "add Mallory to Engineering" false ["Employee:Alice"]
      = (.ok
          { question := "add Mallory to Engineering"
            answer := "Done."
            metadata :=
              { provider := "openai"
                model := "gpt-3.5-turbo"
                contextUsed := []
                executionTimeMs := 3
                structuredSource := "created" }
            cypherQuery? := none },
         ["Employee:Alice", "Employee:Mallory"])
    ∧ (["Employee:Alice", "Employee:Mallory"] : GraphState) ≠ ["Employee:Alice"] := by
  exact ⟨rfl, by decide⟩

/-- C4 amended: the query operation itself issues no graph writes — whenever
the chain invocation (the execution of the generated Cypher) leaves the store
unchanged, the store after the whole `query` call equals the store before it,
both on the success path and on every error path. -/
theorem qa_query_graph_frame (o : GraphOracles) (question : String)
    (includeCypher : Bool) (g : GraphState)
    (hro : ∀ q c g2, (o.chainInvoke q c g2).2 = g2) :
    (qaQueryGraph o question includeCypher g).2 = g := by
  have h := hro question (chainContext (qaDocsG o question)) g
  unfold qaQueryGraph
  cases hg : o.getChain with
  | error e => rfl
  | ok u =>
    simp only
    rcases hp : o.chainInvoke question (chainContext (qaDocsG o question)) g
      with ⟨res, g2⟩
    rw [hp] at h
    cases res <;> simp_all

/-- Read-only chain oracle used to witness the amended C4 statement. -/
def c4ReadOnlyOracle : GraphOracles :=
  { getChain := .ok ()
    vecSearch := fun _ _ => .ok ["Engineering has 3 members"]
    chainInvoke := fun _ _ g =>
      (.ok { result? := some "3", intermediateSteps := [] }, g)
    synthLLM := fun _ => .ok "Three."
    provider := "openai"
    model := "gpt-3.5-turbo"
    elapsedMs := 2 }

/-- Witness for the amended C4 statement at a concrete read-only run. -/
theorem qa_query_graph_frame_witness :
    (qaQueryGraph c4ReadOnlyOracle "How many engineers?" true
      ["Employee:Alice"]).2 = ["Employee:Alice"] :=
  qa_query_graph_frame c4ReadOnlyOracle "How many engineers?" true
    ["Employee:Alice"] (fun _ _ _ => rfl)

/-! ## Theorems about the row cap (C6) -/

/-- Rows of the oversized structured result used in the C6 counterexample. -/
def c6Rows : List String := ["row1", "row2", "row3"]

/-- Oracle whose chain returns a structured result of three rows while the
configured cap of the scenario is two. -/
def c6Oracle : Oracles :=
  { getChain := .ok ()
    vecSearch := fun _ _ => .ok []
    chainInvoke := fun _ _ => .ok
      { result? := some (String.intercalate "\n" c6Rows), intermediateSteps := [] }
    synthLLM := fun _ => .ok "There are three contracts."
    provider := "openai"
    model := "gpt-3.5-turbo"
    elapsedMs := 11 }

/-- C6 counterexample: with the row cap configured as 2, a `QAService.query`
run whose structured result holds 3 rows returns the full three-row result
unchanged — the response carries no truncated result and (by the shape of
`Response`) no truncation flag, because the cap of
`AsyncNeo4jService.execute_query` is never applied on the query path.  The
last two conjuncts show what the cap, had it been applied, would have
produced. -/
theorem qa_query_no_truncation_counterexample :
    qaQuery c6Oracle "list all contracts" false
      = .ok
          { question := "list all contracts"
            answer := "There are three contracts."
            metadata :=
              { provider := "openai"
                model := "gpt-3.5-turbo"
                contextUsed := []
                executionTimeMs := 11
                structuredSource := String.intercalate "\n" c6Rows }
            cypherQuery? := none }
    ∧ c6Rows.length = 3
    ∧ 3 > 2
    ∧ executeQueryLimit 2 c6Rows = (["row1", "row2"], true)
    ∧ String.intercalate "\n" c6Rows
        ≠ String.intercalate "\n" (executeQueryLimit 2 c6Rows).1 := by
  exact ⟨rfl, rfl, by decide, by decide, by decide⟩

/-- C6 amended: the row cap is implemented in
`AsyncNeo4jService.execute_query`: whenever a query returns more rows than
`settings.query_max_results`, that function returns exactly the first
`query_max_results` rows together with the warning condition, and raises no
error (it is total). -/
theorem execute_query_limit_truncates {α : Type} (cap : Nat) (records : List α)
    (h : records.length > cap) :
    executeQueryLimit cap records = (records.take cap, true)
    ∧ (executeQueryLimit cap records).1.length = cap := by
  refine ⟨by simp [executeQueryLimit, h], ?_⟩
  simp [executeQueryLimit, h, List.length_take, Nat.min_eq_left (Nat.le_of_lt h)]

/-- Witness for the amended C6 statement at a concrete oversized row set. -/
theorem execute_query_limit_truncates_witness :
    executeQueryLimit 2 c6Rows = (c6Rows.take 2, true)
    ∧ (executeQueryLimit 2 c6Rows).1.length = 2 :=
  execute_query_limit_truncates 2 c6Rows (by decide)

/-! ## Theorems about chain construction per request (C7) -/

/-- C7: two consecutive requests through the `process_query` route, with no
invalidation in between, construct two chains — not the at-most-one cached
instance the claim describes — because the route builds a fresh
`QAService(graph)` for every request instead of using `get_qa_service`. -/
theorem route_builds_chain_per_request :
    routeChainBuilds 2 = 2 ∧ ¬ routeChainBuilds 2 ≤ 1 := by
  decide

/-! ## Theorems about contract ingestion (C8) -/

def c8Graph : ContractGraph := { clients := [], contracts := [], links := [] }

def c8Data : ContractData :=
  { title? := some "Service Agreement"
    clientName? := some "Acme Corporation"
    contractType? := some "Service Agreement"
    startDate? := none
    endDate? := none
    value? := none
    keyTerms? := none }

def c8Meta : IngestMetadata :=
  { filename? := some "acme.pdf"
    docType? := some "contract"
    clientName? := none
    contractType? := none
    departments := [] }

/-- C8 counterexample: a contract extraction naming client "Acme Corporation"
against a graph with no `Client` nodes still creates the contract and does
not fail, but the result dictionary reports `linked_client` as the supplied
name — not `null` as the claim states (it is `null` only when no name was
supplied or extracted at all). -/
theorem process_contract_unmatched_counterexample :
    processContract c8Graph (some c8Data) c8Meta "contract-1"
      = ({ clients := [], contracts := [("contract-1", "Service Agreement")], links := [] },
         { status := "success"
           documentType := "contract"
           contractId := "contract-1"
           title? := some "Service Agreement"
           linkedClient? := some "Acme Corporation" })
    ∧ (processContract c8Graph (some c8Data) c8Meta "contract-1").2.linkedClient?
        ≠ none := by
  exact ⟨rfl, by decide⟩

/-- C8 amended: when the supplied or extracted client name matches no
existing client (case-insensitive substring match on name), the contract
record is still created, the operation succeeds, no link is made, and the
result reports `linked_client` as the attempted name (it is `null` exactly
when no client name was supplied or extracted). -/
theorem process_contract_no_match_still_creates (g : ContractGraph)
    (parse? : Option ContractData) (metadata : IngestMetadata)
    (cid cn : String)
    (hname : pyOr (parse?.getD (contractDefaults metadata)).clientName?
        metadata.clientName? = some cn)
    (hne : cn ≠ "")
    (hnomatch : ∀ c ∈ g.clients, lowerContains c cn = false) :
    (processContract g parse? metadata cid).2.status = "success"
    ∧ (processContract g parse? metadata cid).2.linkedClient? = some cn
    ∧ (processContract g parse? metadata cid).1.contracts
        = g.contracts
            ++ [(cid, (parse?.getD (contractDefaults metadata)).title?.getD "Untitled")]
    ∧ (processContract g parse? metadata cid).1.links = g.links
    ∧ (processContract g parse? metadata cid).1.clients = g.clients := by
  have htruthy : pyTruthy (some cn) = true := by
    simp [pyTruthy, hne]
  have hfilter : g.clients.filter (fun c => lowerContains c cn) = [] := by
    rw [List.filter_eq_nil_iff]
    intro c hc
    simp [hnomatch c hc]
  simp [processContract, hname, htruthy, hfilter]

/-- Witness for the amended C8 statement: a graph whose only client is
"TechStartup Inc" has no case-insensitive substring match for "Acme
Corporation", yet the contract is created and the run succeeds. -/
theorem process_contract_no_match_still_creates_witness :
    (processContract { clients := ["TechStartup Inc"], contracts := [], links := [] }
        (some c8Data) c8Meta "contract-2").2.status = "success"
    ∧ (processContract { clients := ["TechStartup Inc"], contracts := [], links := [] }
        (some c8Data) c8Meta "contract-2").2.linkedClient? = some "Acme Corporation"
    ∧ (processContract { clients := ["TechStartup Inc"], contracts := [], links := [] }
        (some c8Data) c8Meta "contract-2").1.contracts
        = [] ++ [("contract-2",
            ((some c8Data).getD (contractDefaults c8Meta)).title?.getD "Untitled")]
    ∧ (processContract { clients := ["TechStartup Inc"], contracts := [], links := [] }
        (some c8Data) c8Meta "contract-2").1.links = []
    ∧ (processContract { clients := ["TechStartup Inc"], contracts := [], links := [] }
        (some c8Data) c8Meta "contract-2").1.clients = ["TechStartup Inc"] :=
  process_contract_no_match_still_creates
    { clients := ["TechStartup Inc"], contracts := [], links := [] }
    (some c8Data) c8Meta "contract-2" "Acme Corporation"
    rfl (by decide) (by decide)

/-! ## Theorems about classification (C9) -/

/-- C9 counterexample: `_classify_document` has no exception handler around
`self.llm.invoke`, so a failing language-model call propagates out of the
classification step (and `process_pdf` re-raises it): classification does not
"never raise". -/
theorem classify_document_raises_counterexample :
    classifyDocument (.error "llm unavailable") = .error "llm unavailable"
    ∧ classifyAndRoute (.error "llm unavailable") = .error "llm unavailable" :=
  ⟨rfl, rfl⟩

/-- C9 amended: whenever the classification LLM call returns a response, the
document resolves to exactly one category of the closed set, and any response
whose stripped lowercase form is not exactly "contract" or "policy" routes to
the general category rather than failing; only a raising LLM call makes the
classification step itself raise. -/
theorem classify_route_total_on_success (resp : String) :
    classifyAndRoute (.ok resp) = .ok (routeDocType resp.trim.toLower)
    ∧ (routeDocType resp.trim.toLower = .general
        ↔ resp.trim.toLower ≠ "contract" ∧ resp.trim.toLower ≠ "policy") := by
  refine ⟨rfl, ?_⟩
  by_cases h1 : resp.trim.toLower = "contract" <;>
    by_cases h2 : resp.trim.toLower = "policy" <;>
      simp [routeDocType, h1, h2]

/-- Witness for the amended C9 statement: an unrecognized classification
response routes to the general category. -/
theorem classify_route_total_on_success_witness :
    classifyAndRoute (.ok "Memo") = .ok (routeDocType "Memo".trim.toLower)
    ∧ (routeDocType "Memo".trim.toLower = .general
        ↔ "Memo".trim.toLower ≠ "contract" ∧ "Memo".trim.toLower ≠ "policy") :=
  classify_route_total_on_success "Memo"

end LangchainNeo4j
